import Mathlib

/-!
Shallow embedding of the Space Invaders simulation engine from
`src/main.rs` (`struct GameState` and its `impl`), together with proofs
about its behaviour.  Machine arithmetic on the narrow integer types
(`u16`, `i16`, `i8`) is modelled with explicit two's-complement wrap
helpers; the 64-bit counters (`u64`, `usize`) are modelled as `Nat`.
-/

namespace SpaceInv

/-- Mirrors `struct Pos { x: u16, y: u16 }`. -/
structure Pos where
  x : Nat
  y : Nat
deriving DecidableEq, Repr

/-- Mirrors `struct GameConfig`. -/
structure GameConfig where
  tick_ms : Nat
  initial_enemy_rows : Nat
  initial_enemy_cols : Nat
  enemy_move_every_ticks : Nat
  enemy_speedup_every_kills : Nat
deriving DecidableEq, Repr

/-- Mirrors `struct GameState`; `enemy_direction` is the `i8` field,
modelled as the `Int` it represents. -/
structure GameState where
  width : Nat
  height : Nat
  player : Pos
  bullets : List Pos
  enemies : List Pos
  score : Nat
  kills : Nat
  tick_count : Nat
  enemy_tick_acc : Nat
  enemy_move_every_ticks : Nat
  enemy_direction : Int
  game_over : Bool
  victory : Bool
  spawn_rows : Nat
  spawn_cols : Nat
  level : Nat
deriving DecidableEq, Repr

/-- Wrapping `u16` subtraction `a - b` (release-mode two's-complement
wrap of `a - b` for `a < 65536`, `b ≤ 65536`). -/
def wsub16 (a b : Nat) : Nat := (a + 65536 - b) % 65536

/-- Value of a `u16` bit pattern reinterpreted as an `i16` (`as i16`). -/
def toI16 (n : Nat) : Int :=
  if n % 65536 < 32768 then ((n % 65536 : Nat) : Int)
  else ((n % 65536 : Nat) : Int) - 65536

/-- Two's-complement wrap of an `i16` arithmetic result. -/
def wrapI16 (z : Int) : Int := (z + 32768) % 65536 - 32768

/-- Two's-complement wrap of an `i8` arithmetic result. -/
def wrapI8 (z : Int) : Int := (z + 128) % 256 - 128

/-- Value of an `i16` reinterpreted as a `u16` bit pattern (`as u16`). -/
def toU16 (z : Int) : Nat := (z % 65536).toNat

/-- One step of insertion sort. -/
def insertNat (a : Nat) : List Nat → List Nat
  | [] => [a]
  | b :: l => if a ≤ b then a :: b :: l else b :: insertNat a l

/-- Ascending sort of a list of indices; models `to_remove.sort_unstable()`
(only the sorted result matters, the sorting algorithm itself does not). -/
def sortNat : List Nat → List Nat
  | [] => []
  | a :: l => insertNat a (sortNat l)

/-- Removal of consecutive duplicates; models `to_remove.dedup()`
(Rust's `Vec::dedup` also removes only consecutive duplicates). -/
def dedupConsec : List Nat → List Nat
  | [] => []
  | [a] => [a]
  | a :: b :: rest =>
      if a = b then dedupConsec (b :: rest) else a :: dedupConsec (b :: rest)

/-- Models the removal loop
`for idx in to_remove.iter().rev() { if *idx < self.enemies.len() { self.enemies.remove(*idx); } }` —
`idxs` is already reversed by the caller. -/
def removeIdxs (es : List Pos) (idxs : List Nat) : List Pos :=
  idxs.foldl (fun acc i => if i < acc.length then acc.eraseIdx i else acc) es

/-- The enemy grid produced by `GameState::spawn_enemies`, as a function of
the fields it reads (`width`, `height`, `spawn_rows`, `spawn_cols`). -/
def spawnList (width height rows cols : Nat) : List Pos :=
  let usableW := width - 4
  let colsW := cols % 65536
  let spacingX := max (usableW / ((colsW + 1) % 65536)) 1
  (List.range (rows % 65536)).flatMap (fun row =>
    (List.range colsW).filterMap (fun col =>
      let x := (2 + spacingX * (col + 1)) % 65536
      let y := (2 + row * 2) % 65536
      if x < wsub16 width 1 && y < wsub16 height 2 then some (⟨x, y⟩ : Pos)
      else none))

/-- Mirrors `GameState::new`. -/
def GameState.new (width height : Nat) (cfg : GameConfig) : GameState where
  width := width
  height := height
  player := ⟨width / 2, wsub16 height 3⟩
  bullets := []
  enemies := spawnList width height cfg.initial_enemy_rows cfg.initial_enemy_cols
  score := 0
  kills := 0
  tick_count := 0
  enemy_tick_acc := 0
  enemy_move_every_ticks := cfg.enemy_move_every_ticks
  enemy_direction := 1
  game_over := false
  victory := false
  spawn_rows := cfg.initial_enemy_rows
  spawn_cols := cfg.initial_enemy_cols
  level := 1

/-- Mirrors `GameState::reset`. -/
def reset (s : GameState) (cfg : GameConfig) : GameState :=
  { s with
    player := ⟨s.width / 2, wsub16 s.height 3⟩
    bullets := []
    enemies := spawnList s.width s.height cfg.initial_enemy_rows cfg.initial_enemy_cols
    score := 0
    kills := 0
    tick_count := 0
    enemy_tick_acc := 0
    enemy_move_every_ticks := cfg.enemy_move_every_ticks
    enemy_direction := 1
    game_over := false
    victory := false
    spawn_rows := cfg.initial_enemy_rows
    spawn_cols := cfg.initial_enemy_cols
    level := 1 }

/-- Mirrors `GameState::shoot`. -/
def shoot (s : GameState) : GameState :=
  if s.bullets.length < 3 then
    { s with bullets := s.bullets ++ [⟨s.player.x, s.player.y - 1⟩] }
  else s

/-- Mirrors `GameState::move_player_left`. -/
def movePlayerLeft (s : GameState) : GameState :=
  if 1 < s.player.x then { s with player := ⟨s.player.x - 1, s.player.y⟩ } else s

/-- Mirrors `GameState::move_player_right`. -/
def movePlayerRight (s : GameState) : GameState :=
  if s.player.x < s.width - 2 then
    { s with player := ⟨(s.player.x + 1) % 65536, s.player.y⟩ }
  else s

/-- Mirrors the `Event::Resize` handler in `main` (it sets `width`,
`height` and `player.y = height.saturating_sub(3)` directly). -/
def resize (w h : Nat) (s : GameState) : GameState :=
  { s with width := w, height := h, player := ⟨s.player.x, h - 3⟩ }

/-- Tick step 1: `self.tick_count += 1; self.enemy_tick_acc += 1;`. -/
def advanceCounters (s : GameState) : GameState :=
  { s with tick_count := s.tick_count + 1, enemy_tick_acc := s.enemy_tick_acc + 1 }

/-- Tick step 2 (move bullets up):
`for b in bullets { if b.y > 0 { b.y -= 1 } }; bullets.retain(|b| b.y > 0)`. -/
def movedBullets (bs : List Pos) : List Pos :=
  (bs.map (fun b => if 0 < b.y then (⟨b.x, b.y - 1⟩ : Pos) else b)).filter
    (fun b => decide (0 < b.y))

/-- Tick step 2 applied to the state. -/
def moveBullets (s : GameState) : GameState :=
  { s with bullets := movedBullets s.bullets }

/-- Mirrors `self.enemies.iter().position(|e| e.x == b.x && e.y == b.y)`:
the first index of an enemy sharing the bullet's position, if any. -/
def matcher (enemies : List Pos) (b : Pos) : Option Nat :=
  enemies.findIdx? (fun e => e.x == b.x && e.y == b.y)

/-- One iteration of the collision loop body: the accumulator is
`(to_remove, score, kills)` and `b` the current bullet. -/
def collideStep (enemies : List Pos) (acc : List Nat × Nat × Nat) (b : Pos) :
    List Nat × Nat × Nat :=
  match matcher enemies b with
  | some ei => (acc.1 ++ [ei], acc.2.1 + 10, acc.2.2 + 1)
  | none => acc

/-- The list of enemy indices pushed onto `to_remove` during the collision
loop (one entry per bullet that finds a matching enemy, first-match index). -/
def matchIdxList (s : GameState) : List Nat :=
  s.bullets.filterMap (matcher s.enemies)

/-- Tick step 3: the collision-resolution block of `GameState::tick`
(the bullet loop accumulating `to_remove`/score/kills, then
`sort_unstable`, `dedup`, and reverse-order removal). -/
def resolveCollisions (s : GameState) : GameState :=
  { s with
    score := (s.bullets.foldl (collideStep s.enemies) ([], s.score, s.kills)).2.1
    kills := (s.bullets.foldl (collideStep s.enemies) ([], s.score, s.kills)).2.2
    enemies := removeIdxs s.enemies
      (dedupConsec (sortNat (s.bullets.foldl (collideStep s.enemies)
        ([], s.score, s.kills)).1)).reverse }

/-- Tick step 4: the `if self.enemies.is_empty()` level-up block. -/
def waveClear (s : GameState) : GameState :=
  if s.enemies.isEmpty then
    let lvl := s.level + 1
    let rows := if lvl % 2 = 0 then min (s.spawn_rows + 1) 6 else s.spawn_rows
    let cols := if lvl % 2 = 0 then s.spawn_cols else min (s.spawn_cols + 1) 12
    { s with
      level := lvl
      spawn_rows := rows
      spawn_cols := cols
      enemy_move_every_ticks := max (s.enemy_move_every_ticks - 1) 1
      enemies := spawnList s.width s.height rows cols }
  else s

/-- The `hit_side` test of tick step 5, with the `u16`/`i16` casts of
`e.x as i16 + shift <= 1 || e.x as i16 + shift >= (self.width as i16 - 2)`
made explicit (`shift = enemy_direction as i16` is value-preserving). -/
def hitSideB (s : GameState) : Bool :=
  s.enemies.any (fun e =>
    decide (wrapI16 (toI16 e.x + s.enemy_direction) ≤ 1) ||
    decide (wrapI16 (toI16 s.width - 2) ≤ wrapI16 (toI16 e.x + s.enemy_direction)))

/-- Tick step 5: formation movement, guarded by
`enemy_tick_acc >= enemy_move_every_ticks` (which also resets the accumulator). -/
def moveFormation (s : GameState) : GameState :=
  if s.enemy_move_every_ticks ≤ s.enemy_tick_acc then
    if hitSideB s then
      { s with
        enemy_tick_acc := 0
        enemies := s.enemies.map (fun e => (⟨e.x, (e.y + 1) % 65536⟩ : Pos))
        enemy_direction := wrapI8 (s.enemy_direction * (-1)) }
    else
      { s with
        enemy_tick_acc := 0
        enemies := s.enemies.map (fun e =>
          (⟨toU16 (wrapI16 (toI16 e.x + s.enemy_direction)), e.y⟩ : Pos)) }
  else s

/-- Tick step 6: `if self.enemies.iter().any(|e| e.y >= self.player.y) { game_over = true }`. -/
def lossCheck (s : GameState) : GameState :=
  if s.enemies.any (fun e => decide (s.player.y ≤ e.y)) then
    { s with game_over := true }
  else s

/-- Mirrors `GameState::tick` (the `_cfg` argument is unused in the source). -/
def tick (s : GameState) : GameState :=
  if s.game_over || s.victory then s
  else lossCheck (moveFormation (waveClear (resolveCollisions (moveBullets (advanceCounters s)))))

/-- Iterated ticks. -/
def tickN : Nat → GameState → GameState
  | 0, s => s
  | n + 1, s => tickN n (tick s)

/-- One pass of the driver loop's fixed-interval block in `main`:
`gs.tick(&cfg)`, then the kill-count speedup rule, then the
empty-enemies victory check. -/
def driverTick (cfg : GameConfig) (s : GameState) : GameState :=
  let s1 := tick s
  let s2 :=
    if 0 < s1.kills ∧ s1.kills % cfg.enemy_speedup_every_kills = 0 then
      { s1 with enemy_move_every_ticks := max (s1.enemy_move_every_ticks - 1) 1 }
    else s1
  if s2.enemies.isEmpty then { s2 with victory := true } else s2

/-- States reachable through the operations the driver loop in `main`
performs on the engine, from a session created with `GameState.new`:
driver-loop ticks, player movement, shooting (driver-guarded to
non-terminal states), reset (driver-guarded to terminal states), and
terminal resizes. -/
inductive Reachable (cfg : GameConfig) : GameState → Prop where
  | init (w h : Nat) : Reachable cfg (GameState.new w h cfg)
  | step_tick {s : GameState} : Reachable cfg s → Reachable cfg (driverTick cfg s)
  | step_left {s : GameState} : Reachable cfg s → Reachable cfg (movePlayerLeft s)
  | step_right {s : GameState} : Reachable cfg s → Reachable cfg (movePlayerRight s)
  | step_shoot {s : GameState} : Reachable cfg s → s.game_over = false →
      s.victory = false → Reachable cfg (shoot s)
  | step_reset {s : GameState} : Reachable cfg s →
      (s.game_over = true ∨ s.victory = true) → Reachable cfg (reset s cfg)
  | step_resize {s : GameState} (w h : Nat) : Reachable cfg s → Reachable cfg (resize w h s)

/-- Number of (post-movement) bullets that find a matching enemy in the
collision pass. -/
def matchCount (s : GameState) : Nat := (matchIdxList s).length

/-- Number of distinct enemies matched in the collision pass (the length
of `to_remove` after sort and dedup). -/
def uniqueMatchCount (s : GameState) : Nat :=
  (dedupConsec (sortNat (matchIdxList s))).length

/-- The collision loop's fold computes exactly the pushed index list, a
score increment of 10 per push, and a kill increment of 1 per push. -/
lemma collide_foldl (enemies : List Pos) (bs : List Pos) :
    ∀ (l : List Nat) (sc k : Nat),
      bs.foldl (collideStep enemies) (l, sc, k) =
        (l ++ bs.filterMap (matcher enemies),
         sc + 10 * (bs.filterMap (matcher enemies)).length,
         k + (bs.filterMap (matcher enemies)).length) := by
  induction bs with
  | nil => intro l sc k; simp
  | cons b bs ih =>
      intro l sc k
      cases h : matcher enemies b with
      | none =>
          simp only [List.foldl_cons, collideStep, h, List.filterMap_cons, ih l sc k]
      | some ei =>
          simp only [List.foldl_cons, collideStep, h, List.filterMap_cons,
            List.length_cons]
          rw [ih (l ++ [ei]) (sc + 10) (k + 1)]
          simp only [List.append_assoc, List.singleton_append, Prod.mk.injEq]
          refine ⟨by simp, by ring, by ring⟩

/-- Closed form of the collision-resolution phase. -/
lemma resolveCollisions_spec (s : GameState) :
    resolveCollisions s =
      { s with
        score := s.score + 10 * matchCount s
        kills := s.kills + matchCount s
        enemies := removeIdxs s.enemies
          (dedupConsec (sortNat (matchIdxList s))).reverse } := by
  unfold resolveCollisions matchCount matchIdxList
  rw [collide_foldl]
  simp

@[simp] lemma advanceCounters_bullets (s : GameState) :
    (advanceCounters s).bullets = s.bullets := rfl

@[simp] lemma advanceCounters_enemies (s : GameState) :
    (advanceCounters s).enemies = s.enemies := rfl

@[simp] lemma advanceCounters_score (s : GameState) :
    (advanceCounters s).score = s.score := rfl

@[simp] lemma advanceCounters_kills (s : GameState) :
    (advanceCounters s).kills = s.kills := rfl

@[simp] lemma moveBullets_bullets (s : GameState) :
    (moveBullets s).bullets = movedBullets s.bullets := rfl

@[simp] lemma moveBullets_enemies (s : GameState) :
    (moveBullets s).enemies = s.enemies := rfl

@[simp] lemma moveBullets_score (s : GameState) :
    (moveBullets s).score = s.score := rfl

@[simp] lemma moveBullets_kills (s : GameState) :
    (moveBullets s).kills = s.kills := rfl

@[simp] lemma resolveCollisions_bullets (s : GameState) :
    (resolveCollisions s).bullets = s.bullets := rfl

@[simp] lemma resolveCollisions_score (s : GameState) :
    (resolveCollisions s).score = s.score + 10 * matchCount s := by
  rw [resolveCollisions_spec]

@[simp] lemma resolveCollisions_kills (s : GameState) :
    (resolveCollisions s).kills = s.kills + matchCount s := by
  rw [resolveCollisions_spec]

@[simp] lemma waveClear_bullets (s : GameState) :
    (waveClear s).bullets = s.bullets := by
  unfold waveClear; split <;> rfl

@[simp] lemma waveClear_score (s : GameState) :
    (waveClear s).score = s.score := by
  unfold waveClear; split <;> rfl

@[simp] lemma waveClear_kills (s : GameState) :
    (waveClear s).kills = s.kills := by
  unfold waveClear; split <;> rfl

@[simp] lemma moveFormation_bullets (s : GameState) :
    (moveFormation s).bullets = s.bullets := by
  unfold moveFormation
  split
  · split <;> rfl
  · rfl

@[simp] lemma moveFormation_score (s : GameState) :
    (moveFormation s).score = s.score := by
  unfold moveFormation
  split
  · split <;> rfl
  · rfl

@[simp] lemma moveFormation_kills (s : GameState) :
    (moveFormation s).kills = s.kills := by
  unfold moveFormation
  split
  · split <;> rfl
  · rfl

@[simp] lemma lossCheck_bullets (s : GameState) :
    (lossCheck s).bullets = s.bullets := by
  unfold lossCheck; split <;> rfl

@[simp] lemma lossCheck_score (s : GameState) :
    (lossCheck s).score = s.score := by
  unfold lossCheck; split <;> rfl

@[simp] lemma lossCheck_kills (s : GameState) :
    (lossCheck s).kills = s.kills := by
  unfold lossCheck; split <;> rfl

lemma movedBullets_length (bs : List Pos) : (movedBullets bs).length ≤ bs.length := by
  unfold movedBullets
  exact le_trans (List.length_filter_le _ _) (by simp)

/-- Per-tick change of score, kills and bullet count: score and kills move
in lockstep (10 points per kill), and the bullet list never grows. -/
lemma tick_delta (s : GameState) :
    ∃ m, (tick s).score = s.score + 10 * m ∧ (tick s).kills = s.kills + m ∧
      (tick s).bullets.length ≤ s.bullets.length := by
  unfold tick
  split
  · exact ⟨0, by simp⟩
  · refine ⟨matchCount (moveBullets (advanceCounters s)), by simp, by simp, ?_⟩
    simp only [lossCheck_bullets, moveFormation_bullets, waveClear_bullets,
      resolveCollisions_bullets, moveBullets_bullets, advanceCounters_bullets]
    exact movedBullets_length s.bullets

lemma driverTick_score (cfg : GameConfig) (s : GameState) :
    (driverTick cfg s).score = (tick s).score := by
  unfold driverTick
  dsimp only
  split <;> split <;> rfl

lemma driverTick_kills (cfg : GameConfig) (s : GameState) :
    (driverTick cfg s).kills = (tick s).kills := by
  unfold driverTick
  dsimp only
  split <;> split <;> rfl

lemma driverTick_bullets (cfg : GameConfig) (s : GameState) :
    (driverTick cfg s).bullets = (tick s).bullets := by
  unfold driverTick
  dsimp only
  split <;> split <;> rfl

lemma shoot_score (s : GameState) : (shoot s).score = s.score := by
  unfold shoot; split <;> rfl

lemma shoot_kills (s : GameState) : (shoot s).kills = s.kills := by
  unfold shoot; split <;> rfl

lemma movePlayerLeft_frame (s : GameState) :
    (movePlayerLeft s).score = s.score ∧ (movePlayerLeft s).kills = s.kills ∧
      (movePlayerLeft s).bullets = s.bullets := by
  unfold movePlayerLeft; split <;> exact ⟨rfl, rfl, rfl⟩

lemma movePlayerRight_frame (s : GameState) :
    (movePlayerRight s).score = s.score ∧ (movePlayerRight s).kills = s.kills ∧
      (movePlayerRight s).bullets = s.bullets := by
  unfold movePlayerRight; split <;> exact ⟨rfl, rfl, rfl⟩

lemma toI16_of_lt {n : Nat} (h : n < 32768) : toI16 n = (n : Int) := by
  unfold toI16
  rw [Nat.mod_eq_of_lt (by omega), if_pos h]

lemma wrapI16_eq_self {z : Int} (h1 : -32768 ≤ z) (h2 : z ≤ 32767) : wrapI16 z = z := by
  unfold wrapI16; omega

lemma toU16_small {z : Int} (h1 : 0 ≤ z) (h2 : z < 65536) : toU16 z = z.toNat := by
  unfold toU16; omega

/-- Under in-range hypotheses, the `hit_side` test computed with `i16`
casts agrees with the plain-integer reading of the boundary condition. -/
lemma hitSideB_iff (s : GameState)
    (hw : s.width < 32768)
    (hd : s.enemy_direction = 1 ∨ s.enemy_direction = -1)
    (hx : ∀ e ∈ s.enemies, e.x < s.width) :
    hitSideB s = true ↔
      ∃ e ∈ s.enemies, (e.x : Int) + s.enemy_direction ≤ 1 ∨
        (s.width : Int) - 2 ≤ (e.x : Int) + s.enemy_direction := by
  have hxe : ∀ e ∈ s.enemies,
      wrapI16 (toI16 e.x + s.enemy_direction) = (e.x : Int) + s.enemy_direction := by
    intro e he
    have hxw := hx e he
    have h1 : e.x < 32768 := by omega
    rw [toI16_of_lt h1]
    rcases hd with hd | hd <;> rw [hd] <;> apply wrapI16_eq_self <;> omega
  have hwnorm : wrapI16 (toI16 s.width - 2) = (s.width : Int) - 2 := by
    rw [toI16_of_lt hw]
    apply wrapI16_eq_self <;> omega
  unfold hitSideB
  rw [List.any_eq_true]
  constructor
  · rintro ⟨e, he, hcb⟩
    refine ⟨e, he, ?_⟩
    simp only [Bool.or_eq_true, decide_eq_true_eq] at hcb
    rwa [hxe e he, hwnorm] at hcb
  · rintro ⟨e, he, hcb⟩
    refine ⟨e, he, ?_⟩
    simp only [Bool.or_eq_true, decide_eq_true_eq]
    rw [hxe e he, hwnorm]
    exact hcb

/-- C2: For every state whose enemy-move accumulator has reached the
cadence (with in-range `u16`/`i8` fields: width below `i16` overflow,
direction ±1, enemy columns inside the play area, enemy rows below the
`u16` maximum), the formation step either descends or shifts laterally,
never both: if some enemy's column plus the direction would be ≤ 1 or
≥ width−2, every enemy's row increases by 1, the direction flips sign and
no column changes; otherwise every column shifts by the direction and all
resulting columns lie strictly between 0 and width−1. -/
theorem formation_step_dichotomy (s : GameState)
    (hacc : s.enemy_move_every_ticks ≤ s.enemy_tick_acc)
    (hw : s.width < 32768)
    (hd : s.enemy_direction = 1 ∨ s.enemy_direction = -1)
    (hx : ∀ e ∈ s.enemies, e.x < s.width)
    (hy : ∀ e ∈ s.enemies, e.y < 65535) :
    ((∃ e ∈ s.enemies, (e.x : Int) + s.enemy_direction ≤ 1 ∨
        (s.width : Int) - 2 ≤ (e.x : Int) + s.enemy_direction) →
      (moveFormation s).enemies = s.enemies.map (fun e => (⟨e.x, e.y + 1⟩ : Pos)) ∧
      (moveFormation s).enemy_direction = -s.enemy_direction) ∧
    ((¬ ∃ e ∈ s.enemies, (e.x : Int) + s.enemy_direction ≤ 1 ∨
        (s.width : Int) - 2 ≤ (e.x : Int) + s.enemy_direction) →
      (moveFormation s).enemies =
        s.enemies.map (fun e => (⟨((e.x : Int) + s.enemy_direction).toNat, e.y⟩ : Pos)) ∧
      (moveFormation s).enemy_direction = s.enemy_direction ∧
      ∀ e ∈ (moveFormation s).enemies, 0 < e.x ∧ e.x + 1 < s.width) := by
  constructor
  · intro hdesc
    have hside : hitSideB s = true := (hitSideB_iff s hw hd hx).mpr hdesc
    have hmf : moveFormation s =
        { s with
          enemy_tick_acc := 0
          enemies := s.enemies.map (fun e => (⟨e.x, (e.y + 1) % 65536⟩ : Pos))
          enemy_direction := wrapI8 (s.enemy_direction * (-1)) } := by
      unfold moveFormation
      rw [if_pos hacc, if_pos hside]
    rw [hmf]
    constructor
    · dsimp only
      apply List.map_congr_left
      intro e he
      have := hy e he
      congr 1
      omega
    · dsimp only
      rcases hd with hd | hd <;> rw [hd] <;> decide
  · intro hndesc
    have hside : hitSideB s = false := by
      cases hcase : hitSideB s
      · rfl
      · exact absurd ((hitSideB_iff s hw hd hx).mp hcase) hndesc
    have hbound : ∀ e ∈ s.enemies, 1 < (e.x : Int) + s.enemy_direction ∧
        (e.x : Int) + s.enemy_direction < (s.width : Int) - 2 := by
      intro e he
      have h0 := List.any_eq_false.mp hside e he
      simp only [Bool.or_eq_true, decide_eq_true_eq, not_or] at h0
      have hxw := hx e he
      have h1 : e.x < 32768 := by omega
      rw [toI16_of_lt h1] at h0
      have hxe : wrapI16 ((e.x : Int) + s.enemy_direction) = (e.x : Int) + s.enemy_direction := by
        rcases hd with hd | hd <;> rw [hd] <;> apply wrapI16_eq_self <;> omega
      have hwnorm : wrapI16 (toI16 s.width - 2) = (s.width : Int) - 2 := by
        rw [toI16_of_lt hw]
        apply wrapI16_eq_self <;> omega
      rw [hxe, hwnorm] at h0
      omega
    have hmf : moveFormation s =
        { s with
          enemy_tick_acc := 0
          enemies := s.enemies.map (fun e =>
            (⟨toU16 (wrapI16 (toI16 e.x + s.enemy_direction)), e.y⟩ : Pos)) } := by
      unfold moveFormation
      rw [if_pos hacc, hside]
      simp
    rw [hmf]
    have hmap : ∀ e ∈ s.enemies,
        toU16 (wrapI16 (toI16 e.x + s.enemy_direction)) =
          ((e.x : Int) + s.enemy_direction).toNat := by
      intro e he
      have hxw := hx e he
      have h1 : e.x < 32768 := by omega
      have hb := hbound e he
      rw [toI16_of_lt h1]
      have hxe : wrapI16 ((e.x : Int) + s.enemy_direction) = (e.x : Int) + s.enemy_direction := by
        rcases hd with hd | hd <;> rw [hd] <;> apply wrapI16_eq_self <;> omega
      rw [hxe]
      apply toU16_small <;> omega
    refine ⟨?_, rfl, ?_⟩
    · dsimp only
      apply List.map_congr_left
      intro e he
      rw [hmap e he]
    · dsimp only
      intro e' he'
      rw [List.mem_map] at he'
      obtain ⟨e, he, rfl⟩ := he'
      have hb := hbound e he
      rw [hmap e he]
      dsimp only
      constructor <;> omega

/-- Concrete in-range state for the formation-step theorem: accumulator at
the cadence, one enemy away from both side walls. -/
def c2state : GameState :=
  { width := 40, height := 20, player := ⟨20, 17⟩, bullets := [], enemies := [⟨20, 5⟩],
    score := 0, kills := 0, tick_count := 6, enemy_tick_acc := 6,
    enemy_move_every_ticks := 6, enemy_direction := 1, game_over := false,
    victory := false, spawn_rows := 1, spawn_cols := 1, level := 1 }

/-- Witness for `formation_step_dichotomy` at `c2state`. -/
theorem formation_step_dichotomy_witness :
    (c2state.enemy_move_every_ticks ≤ c2state.enemy_tick_acc ∧
     c2state.width < 32768 ∧
     (c2state.enemy_direction = 1 ∨ c2state.enemy_direction = -1) ∧
     (∀ e ∈ c2state.enemies, e.x < c2state.width) ∧
     (∀ e ∈ c2state.enemies, e.y < 65535)) ∧
    (((∃ e ∈ c2state.enemies, (e.x : Int) + c2state.enemy_direction ≤ 1 ∨
        (c2state.width : Int) - 2 ≤ (e.x : Int) + c2state.enemy_direction) →
      (moveFormation c2state).enemies =
        c2state.enemies.map (fun e => (⟨e.x, e.y + 1⟩ : Pos)) ∧
      (moveFormation c2state).enemy_direction = -c2state.enemy_direction) ∧
    ((¬ ∃ e ∈ c2state.enemies, (e.x : Int) + c2state.enemy_direction ≤ 1 ∨
        (c2state.width : Int) - 2 ≤ (e.x : Int) + c2state.enemy_direction) →
      (moveFormation c2state).enemies =
        c2state.enemies.map
          (fun e => (⟨((e.x : Int) + c2state.enemy_direction).toNat, e.y⟩ : Pos)) ∧
      (moveFormation c2state).enemy_direction = c2state.enemy_direction ∧
      ∀ e ∈ (moveFormation c2state).enemies, 0 < e.x ∧ e.x + 1 < c2state.width)) :=
  ⟨⟨by decide, by decide, by decide, by decide, by decide⟩,
   formation_step_dichotomy c2state (by decide) (by decide) (by decide)
     (by decide) (by decide)⟩

/-- C4: In every terminal state (game-over or victory), `tick` leaves the
entire state unchanged. -/
theorem terminal_tick_frozen (s : GameState)
    (h : s.game_over = true ∨ s.victory = true) : tick s = s := by
  unfold tick
  rcases h with h | h <;> rw [h] <;> simp

/-- Concrete terminal state. -/
def c4state : GameState :=
  { width := 40, height := 20, player := ⟨20, 17⟩, bullets := [⟨5, 5⟩],
    enemies := [⟨20, 17⟩], score := 30, kills := 3, tick_count := 9,
    enemy_tick_acc := 2, enemy_move_every_ticks := 6, enemy_direction := -1,
    game_over := true, victory := false, spawn_rows := 3, spawn_cols := 6, level := 1 }

/-- Witness for `terminal_tick_frozen` at `c4state`. -/
theorem terminal_tick_frozen_witness :
    (c4state.game_over = true ∨ c4state.victory = true) ∧ tick c4state = c4state :=
  ⟨Or.inl rfl, terminal_tick_frozen c4state (Or.inl rfl)⟩

/-- C5: In every tick on a non-terminal state, the bullet phase decreases
each bullet's row by 1 saturating at 0, then removes exactly the bullets at
row 0, and this happens before collision resolution (every bullet entering
the collision pass has a positive row, so a bullet at row 0 never scores). -/
theorem bullet_phase_spec (s : GameState)
    (hgo : s.game_over = false) (hv : s.victory = false) :
    (moveBullets s).bullets =
      (s.bullets.map (fun b => (⟨b.x, b.y - 1⟩ : Pos))).filter (fun b => decide (0 < b.y)) ∧
    (∀ b ∈ (moveBullets s).bullets, 0 < b.y) ∧
    tick s =
      lossCheck (moveFormation (waveClear (resolveCollisions (moveBullets (advanceCounters s))))) := by
  refine ⟨?_, ?_, ?_⟩
  · show movedBullets s.bullets = _
    unfold movedBullets
    congr 1
    apply List.map_congr_left
    intro b _
    cases b with
    | mk x y => cases y <;> simp
  · intro b hb
    simp only [moveBullets_bullets, movedBullets, List.mem_filter,
      decide_eq_true_eq] at hb
    exact hb.2
  · unfold tick
    rw [if_neg (by simp [hgo, hv])]

/-- Concrete non-terminal state with one bullet at the top edge and one
mid-flight. -/
def c5state : GameState :=
  { width := 40, height := 20, player := ⟨20, 17⟩, bullets := [⟨7, 1⟩, ⟨20, 9⟩],
    enemies := [⟨20, 2⟩], score := 0, kills := 0, tick_count := 0,
    enemy_tick_acc := 0, enemy_move_every_ticks := 6, enemy_direction := 1,
    game_over := false, victory := false, spawn_rows := 1, spawn_cols := 1, level := 1 }

/-- Witness for `bullet_phase_spec` at `c5state`. -/
theorem bullet_phase_spec_witness :
    (c5state.game_over = false ∧ c5state.victory = false) ∧
    ((moveBullets c5state).bullets =
      (c5state.bullets.map (fun b => (⟨b.x, b.y - 1⟩ : Pos))).filter
        (fun b => decide (0 < b.y)) ∧
    (∀ b ∈ (moveBullets c5state).bullets, 0 < b.y) ∧
    tick c5state =
      lossCheck (moveFormation (waveClear (resolveCollisions
        (moveBullets (advanceCounters c5state)))))) :=
  ⟨⟨rfl, rfl⟩, bullet_phase_spec c5state rfl rfl⟩

/-- C1 (amended): In every tick on a non-terminal state, score increases by
exactly 10 and kills by exactly 1 per post-movement bullet that finds a
matching enemy (first-match index); deduplication applies only to the
removal list, not to the score/kill increments. -/
theorem collision_scoring (s : GameState)
    (hgo : s.game_over = false) (hv : s.victory = false) :
    (tick s).score = s.score + 10 * matchCount (moveBullets (advanceCounters s)) ∧
    (tick s).kills = s.kills + matchCount (moveBullets (advanceCounters s)) := by
  unfold tick
  rw [if_neg (by simp [hgo, hv])]
  constructor <;> simp

/-- Concrete state with two bullets stacked on the same cell, one tick away
from the single enemy. -/
def c1state : GameState :=
  { width := 40, height := 20, player := ⟨20, 17⟩, bullets := [⟨20, 3⟩, ⟨20, 3⟩],
    enemies := [⟨20, 2⟩], score := 0, kills := 0, tick_count := 0,
    enemy_tick_acc := 0, enemy_move_every_ticks := 50, enemy_direction := 1,
    game_over := false, victory := false, spawn_rows := 1, spawn_cols := 1, level := 1 }

/-- C1 counterexample: at `c1state` exactly one distinct enemy is matched
(k = 1), yet the tick increases score by 20 and kills by 2, not by 10·k
and k. -/
theorem collision_scoring_cex :
    uniqueMatchCount (moveBullets (advanceCounters c1state)) = 1 ∧
    c1state.score = 0 ∧ c1state.kills = 0 ∧
    c1state.game_over = false ∧ c1state.victory = false ∧
    (tick c1state).score = 20 ∧ (tick c1state).kills = 2 ∧
    ¬((tick c1state).score = c1state.score + 10 * 1) := by decide

/-- Witness for `collision_scoring` at `c1state`. -/
theorem collision_scoring_witness :
    (c1state.game_over = false ∧ c1state.victory = false) ∧
    ((tick c1state).score =
      c1state.score + 10 * matchCount (moveBullets (advanceCounters c1state)) ∧
    (tick c1state).kills =
      c1state.kills + matchCount (moveBullets (advanceCounters c1state))) :=
  ⟨⟨rfl, rfl⟩, collision_scoring c1state rfl rfl⟩

/-- The state a non-terminal tick has produced when it reaches the
wave-clear check. -/
def afterCollisions (s : GameState) : GameState :=
  resolveCollisions (moveBullets (advanceCounters s))

/-- Closed form of the wave-clear block on an emptied enemy set. -/
lemma waveClear_of_empty (t : GameState) (h : t.enemies = []) :
    waveClear t =
      { t with
        level := t.level + 1
        spawn_rows := if (t.level + 1) % 2 = 0 then min (t.spawn_rows + 1) 6 else t.spawn_rows
        spawn_cols := if (t.level + 1) % 2 = 0 then t.spawn_cols else min (t.spawn_cols + 1) 12
        enemy_move_every_ticks := max (t.enemy_move_every_ticks - 1) 1
        enemies := spawnList t.width t.height
          (if (t.level + 1) % 2 = 0 then min (t.spawn_rows + 1) 6 else t.spawn_rows)
          (if (t.level + 1) % 2 = 0 then t.spawn_cols else min (t.spawn_cols + 1) 12) } := by
  unfold waveClear
  rw [h]
  simp

/-- C3: In every tick on a non-terminal state whose enemy set is empty
after collision resolution, the level increments, the formation size grows
(rows +1 capped at 6 on even new levels, else columns +1 capped at 12), the
cadence decreases by 1 with floor 1, and the formation is respawned as a
full replacement — all on the state that then enters the
formation-movement step of the same tick. -/
theorem wave_clear_spec (s : GameState)
    (hgo : s.game_over = false) (hv : s.victory = false)
    (hempty : (afterCollisions s).enemies = []) :
    tick s = lossCheck (moveFormation (waveClear (afterCollisions s))) ∧
    (waveClear (afterCollisions s)).level = (afterCollisions s).level + 1 ∧
    (((afterCollisions s).level + 1) % 2 = 0 →
      (waveClear (afterCollisions s)).spawn_rows =
        min ((afterCollisions s).spawn_rows + 1) 6 ∧
      (waveClear (afterCollisions s)).spawn_cols = (afterCollisions s).spawn_cols) ∧
    (((afterCollisions s).level + 1) % 2 ≠ 0 →
      (waveClear (afterCollisions s)).spawn_cols =
        min ((afterCollisions s).spawn_cols + 1) 12 ∧
      (waveClear (afterCollisions s)).spawn_rows = (afterCollisions s).spawn_rows) ∧
    (waveClear (afterCollisions s)).enemy_move_every_ticks =
      max ((afterCollisions s).enemy_move_every_ticks - 1) 1 ∧
    (waveClear (afterCollisions s)).enemies =
      spawnList (afterCollisions s).width (afterCollisions s).height
        (waveClear (afterCollisions s)).spawn_rows
        (waveClear (afterCollisions s)).spawn_cols := by
  rw [waveClear_of_empty _ hempty]
  refine ⟨?_, rfl, ?_, ?_, rfl, ?_⟩
  · unfold tick
    rw [if_neg (by simp [hgo, hv])]
    exact congrArg (fun t => lossCheck (moveFormation t)) (waveClear_of_empty _ hempty)
  · intro hpar
    rw [if_pos hpar, if_pos hpar]
    exact ⟨rfl, rfl⟩
  · intro hpar
    rw [if_neg hpar, if_neg hpar]
    exact ⟨rfl, rfl⟩
  · rfl

/-- Concrete non-terminal state whose single enemy is destroyed by the
incoming bullet, leaving the set empty at the wave-clear check. -/
def c3state : GameState :=
  { width := 40, height := 20, player := ⟨20, 17⟩, bullets := [⟨20, 3⟩],
    enemies := [⟨20, 2⟩], score := 0, kills := 0, tick_count := 0,
    enemy_tick_acc := 0, enemy_move_every_ticks := 50, enemy_direction := 1,
    game_over := false, victory := false, spawn_rows := 1, spawn_cols := 1, level := 1 }

/-- Witness for `wave_clear_spec` at `c3state`. -/
theorem wave_clear_spec_witness :
    (c3state.game_over = false ∧ c3state.victory = false ∧
     (afterCollisions c3state).enemies = []) ∧
    (tick c3state = lossCheck (moveFormation (waveClear (afterCollisions c3state))) ∧
    (waveClear (afterCollisions c3state)).level = (afterCollisions c3state).level + 1 ∧
    (((afterCollisions c3state).level + 1) % 2 = 0 →
      (waveClear (afterCollisions c3state)).spawn_rows =
        min ((afterCollisions c3state).spawn_rows + 1) 6 ∧
      (waveClear (afterCollisions c3state)).spawn_cols =
        (afterCollisions c3state).spawn_cols) ∧
    (((afterCollisions c3state).level + 1) % 2 ≠ 0 →
      (waveClear (afterCollisions c3state)).spawn_cols =
        min ((afterCollisions c3state).spawn_cols + 1) 12 ∧
      (waveClear (afterCollisions c3state)).spawn_rows =
        (afterCollisions c3state).spawn_rows) ∧
    (waveClear (afterCollisions c3state)).enemy_move_every_ticks =
      max ((afterCollisions c3state).enemy_move_every_ticks - 1) 1 ∧
    (waveClear (afterCollisions c3state)).enemies =
      spawnList (afterCollisions c3state).width (afterCollisions c3state).height
        (waveClear (afterCollisions c3state)).spawn_rows
        (waveClear (afterCollisions c3state)).spawn_cols) :=
  ⟨⟨rfl, rfl, by decide⟩, wave_clear_spec c3state rfl rfl (by decide)⟩

/-- C6: In every reachable state the live bullet count is at most 3:
construction and reset produce an empty bullet list, a tick never grows the
bullet list, and `shoot` appends a bullet at the player's column one row
above the player (saturating at 0) only when fewer than 3 are live, and is
a silent no-op otherwise. -/
theorem bullet_cap (cfg : GameConfig) (s : GameState) (h : Reachable cfg s) :
    s.bullets.length ≤ 3 ∧
    (∀ w h2 : Nat, (GameState.new w h2 cfg).bullets = []) ∧
    (∀ t : GameState, (reset t cfg).bullets = []) ∧
    (∀ t : GameState, (tick t).bullets.length ≤ t.bullets.length) ∧
    (∀ t : GameState, t.bullets.length < 3 →
      shoot t = { t with bullets := t.bullets ++ [(⟨t.player.x, t.player.y - 1⟩ : Pos)] }) ∧
    (∀ t : GameState, 3 ≤ t.bullets.length → shoot t = t) := by
  refine ⟨?_, fun w h2 => rfl, fun t => rfl, ?_, ?_, ?_⟩
  · induction h with
    | init w h2 => simp [GameState.new]
    | step_tick hs ih =>
        rw [driverTick_bullets]
        obtain ⟨m, _, _, hlen⟩ := tick_delta _
        exact le_trans hlen ih
    | step_left hs ih => rw [(movePlayerLeft_frame _).2.2]; exact ih
    | step_right hs ih => rw [(movePlayerRight_frame _).2.2]; exact ih
    | step_shoot hs hgo hv ih =>
        unfold shoot
        split
        · next hlt =>
            simp only [List.length_append, List.length_cons, List.length_nil]
            omega
        · next => exact ih
    | step_reset hs hterm ih => simp [reset]
    | step_resize w h2 hs ih => exact ih
  · intro t
    obtain ⟨m, _, _, hlen⟩ := tick_delta t
    exact hlen
  · intro t hlt
    unfold shoot
    rw [if_pos hlt]
  · intro t hge
    unfold shoot
    rw [if_neg (by omega)]

/-- The configuration constructed in `main`. -/
def cfgMain : GameConfig :=
  { tick_ms := 100, initial_enemy_rows := 3, initial_enemy_cols := 6,
    enemy_move_every_ticks := 6, enemy_speedup_every_kills := 5 }

/-- Witness for `bullet_cap` at the freshly constructed session. -/
theorem bullet_cap_witness :
    Reachable cfgMain (GameState.new 40 20 cfgMain) ∧
    ((GameState.new 40 20 cfgMain).bullets.length ≤ 3 ∧
    (∀ w h2 : Nat, (GameState.new w h2 cfgMain).bullets = []) ∧
    (∀ t : GameState, (reset t cfgMain).bullets = []) ∧
    (∀ t : GameState, (tick t).bullets.length ≤ t.bullets.length) ∧
    (∀ t : GameState, t.bullets.length < 3 →
      shoot t = { t with bullets := t.bullets ++ [(⟨t.player.x, t.player.y - 1⟩ : Pos)] }) ∧
    (∀ t : GameState, 3 ≤ t.bullets.length → shoot t = t)) :=
  ⟨Reachable.init 40 20, bullet_cap cfgMain _ (Reachable.init 40 20)⟩

/-- The configuration of the concrete scenario: a 1×1 formation with an
enemy-move cadence long enough (50 ticks) that the lone enemy has not yet
left its spawn cell when the bullet arrives. -/
def cfg7 : GameConfig :=
  { tick_ms := 100, initial_enemy_rows := 1, initial_enemy_cols := 1,
    enemy_move_every_ticks := 50, enemy_speedup_every_kills := 5 }

/-- The scenario's start state: a 40×20 session with a single enemy at
(20,2) and the player at (20,17) firing once before the first tick. -/
def scenarioStart : GameState := shoot (GameState.new 40 20 cfg7)

/-- C7 counterexample: in the concrete scenario the single bullet spawns
one row above the player (row 16), so after 15 ticks it sits at row 1, not
row 2 — the claimed after-15-ticks bullet position is wrong. -/
theorem scenario_cex :
    scenarioStart.player = (⟨20, 17⟩ : Pos) ∧
    scenarioStart.enemies = [(⟨20, 2⟩ : Pos)] ∧
    scenarioStart.bullets = [(⟨20, 16⟩ : Pos)] ∧
    (tickN 15 scenarioStart).bullets = [(⟨20, 1⟩ : Pos)] ∧
    (¬ ∃ b ∈ (tickN 15 scenarioStart).bullets, b.y = 2) := by decide

/-- C7 (amended): after 14 ticks the bullet reaches row 2 and the enemy is
removed, score becomes 10, kills becomes 1, level becomes 2 and the level-2
formation spawns; the counters keep those values after tick 15. -/
theorem scenario_after14 :
    (tickN 13 scenarioStart).enemies = [(⟨20, 2⟩ : Pos)] ∧
    (tickN 13 scenarioStart).score = 0 ∧ (tickN 13 scenarioStart).kills = 0 ∧
    (tickN 14 scenarioStart).bullets = [(⟨20, 2⟩ : Pos)] ∧
    (tickN 14 scenarioStart).score = 10 ∧ (tickN 14 scenarioStart).kills = 1 ∧
    (tickN 14 scenarioStart).level = 2 ∧
    (tickN 14 scenarioStart).enemies = [(⟨20, 2⟩ : Pos), (⟨20, 4⟩ : Pos)] ∧
    (tickN 14 scenarioStart).enemies = spawnList 40 20 2 1 ∧
    (tickN 15 scenarioStart).score = 10 ∧ (tickN 15 scenarioStart).kills = 1 ∧
    (tickN 15 scenarioStart).level = 2 := by decide

/-- C8: `reset` on any state is field-for-field the same as a fresh `new`
with the same dimensions and configuration: zeroed counters, centered
player at row height−3, cleared bullets, direction +1, cadence and
formation size restored from the configuration, and the same freshly
spawned formation. -/
theorem reset_refines_new (s : GameState) (cfg : GameConfig) :
    reset s cfg = GameState.new s.width s.height cfg ∧
    (reset s cfg).score = 0 ∧ (reset s cfg).kills = 0 ∧ (reset s cfg).level = 1 ∧
    (reset s cfg).tick_count = 0 ∧ (reset s cfg).enemy_tick_acc = 0 ∧
    (reset s cfg).bullets = [] ∧ (reset s cfg).enemy_direction = 1 ∧
    (reset s cfg).game_over = false ∧ (reset s cfg).victory = false ∧
    (reset s cfg).enemy_move_every_ticks = cfg.enemy_move_every_ticks ∧
    (reset s cfg).spawn_rows = cfg.initial_enemy_rows ∧
    (reset s cfg).spawn_cols = cfg.initial_enemy_cols ∧
    (reset s cfg).player = (⟨s.width / 2, wsub16 s.height 3⟩ : Pos) ∧
    (reset s cfg).enemies =
      spawnList s.width s.height cfg.initial_enemy_rows cfg.initial_enemy_cols :=
  ⟨rfl, rfl, rfl, rfl, rfl, rfl, rfl, rfl, rfl, rfl, rfl, rfl, rfl, rfl, rfl⟩

/-- A configuration whose ticks-per-move cadence is zero. -/
def cfgZeroCadence : GameConfig :=
  { tick_ms := 100, initial_enemy_rows := 3, initial_enemy_cols := 6,
    enemy_move_every_ticks := 0, enemy_speedup_every_kills := 5 }

/-- C9 evidence: `new` copies a zero ticks-per-move cadence into the state
unchanged — no clamp to a minimum of 1 happens at construction. -/
theorem new_zero_cadence :
    (GameState.new 40 20 cfgZeroCadence).enemy_move_every_ticks = 0 ∧
    ¬(1 ≤ (GameState.new 40 20 cfgZeroCadence).enemy_move_every_ticks) := by decide

/-- C10: In every reachable state, score equals 10 times kills: both
counters start at 0, every tick adds 10 points per kill in lockstep and
never decreases either, and no other operation modifies them (reset zeroes
both). -/
theorem score_ratio (cfg : GameConfig) (s : GameState) (h : Reachable cfg s) :
    s.score = 10 * s.kills ∧
    (∀ t : GameState, ∃ m, (tick t).score = t.score + 10 * m ∧
      (tick t).kills = t.kills + m) ∧
    (∀ t : GameState, t.score ≤ (tick t).score ∧ t.kills ≤ (tick t).kills) ∧
    (∀ t : GameState, (shoot t).score = t.score ∧ (shoot t).kills = t.kills) ∧
    (∀ t : GameState,
      (movePlayerLeft t).score = t.score ∧ (movePlayerLeft t).kills = t.kills) ∧
    (∀ t : GameState,
      (movePlayerRight t).score = t.score ∧ (movePlayerRight t).kills = t.kills) ∧
    (∀ t : GameState, (reset t cfg).score = 0 ∧ (reset t cfg).kills = 0) := by
  refine ⟨?_, ?_, ?_, ?_, ?_, ?_, fun t => ⟨rfl, rfl⟩⟩
  · induction h with
    | init w h2 => simp [GameState.new]
    | step_tick hs ih =>
        rw [driverTick_score, driverTick_kills]
        obtain ⟨m, hsc, hk, _⟩ := tick_delta _
        rw [hsc, hk, ih]
        ring
    | step_left hs ih =>
        rw [(movePlayerLeft_frame _).1, (movePlayerLeft_frame _).2.1]; exact ih
    | step_right hs ih =>
        rw [(movePlayerRight_frame _).1, (movePlayerRight_frame _).2.1]; exact ih
    | step_shoot hs hgo hv ih => rw [shoot_score, shoot_kills]; exact ih
    | step_reset hs hterm ih => simp [reset]
    | step_resize w h2 hs ih => exact ih
  · intro t
    obtain ⟨m, hsc, hk, _⟩ := tick_delta t
    exact ⟨m, hsc, hk⟩
  · intro t
    obtain ⟨m, hsc, hk, _⟩ := tick_delta t
    constructor <;> omega
  · intro t
    exact ⟨shoot_score t, shoot_kills t⟩
  · intro t
    exact ⟨(movePlayerLeft_frame t).1, (movePlayerLeft_frame t).2.1⟩
  · intro t
    exact ⟨(movePlayerRight_frame t).1, (movePlayerRight_frame t).2.1⟩

/-- Witness for `score_ratio` at the freshly constructed session. -/
theorem score_ratio_witness :
    Reachable cfgMain (GameState.new 40 20 cfgMain) ∧
    ((GameState.new 40 20 cfgMain).score = 10 * (GameState.new 40 20 cfgMain).kills ∧
    (∀ t : GameState, ∃ m, (tick t).score = t.score + 10 * m ∧
      (tick t).kills = t.kills + m) ∧
    (∀ t : GameState, t.score ≤ (tick t).score ∧ t.kills ≤ (tick t).kills) ∧
    (∀ t : GameState, (shoot t).score = t.score ∧ (shoot t).kills = t.kills) ∧
    (∀ t : GameState,
      (movePlayerLeft t).score = t.score ∧ (movePlayerLeft t).kills = t.kills) ∧
    (∀ t : GameState,
      (movePlayerRight t).score = t.score ∧ (movePlayerRight t).kills = t.kills) ∧
    (∀ t : GameState, (reset t cfgMain).score = 0 ∧ (reset t cfgMain).kills = 0)) :=
  ⟨Reachable.init 40 20, score_ratio cfgMain _ (Reachable.init 40 20)⟩

end SpaceInv
